import Mathlib

/-!
# Verification of the `MessagesPage` chat component
(`src/pages/messages/messages.ts` of Ionic2CLI-Meteor-WhatsApp)

Shallow embedding of the component's data model and operations:

* the day-group view projection `findMessagesDayGroups`;
* the pagination driver (`subscribeMessages`, the scroll-event pipeline of
  `ngOnInit`, and the auto-removal of the scroll listener);
* the send actions (`sendTextMessage` and its acknowledgment callback);
* the auto-scroll driver (`scrollDown`);
* the keypress dispatcher (`onInputKeypress`).

Asynchronous callbacks are embedded as explicit extra steps: issuing a remote
call and receiving its acknowledgment are separate functions, and the reactive
event pipeline of `ngOnInit` is a step function over an explicit event type.
Remote effects (method calls and subscription requests) are returned as data.

Timestamps are natural numbers (milliseconds); a calendar day is the quotient
by `msPerDay`, and the `'D MMMM Y'` date format is embedded as an injective
rendering of the calendar-day number.
-/

namespace MessagesPage

/-- A chat message as stored in the `Messages` collection, restricted to the
fields this component reads (`api/models` Message). `ownership` is the
view-only derived field, absent (empty) on stored messages. -/
structure Message where
  mongoId : String
  chatId : String
  senderId : String
  createdAt : Nat
  content : String
  kind : String
  ownership : String := ""
  deriving Repr, DecidableEq

/-- A day group emitted by the view projection: formatted day label, the
messages of that bucket, and the "is today" flag. -/
structure DayGroup where
  timestamp : String
  messages : List Message
  today : Bool
  deriving Repr, DecidableEq

/-- Milliseconds per calendar day. -/
def msPerDay : Nat := 86400000

/-- The calendar day of a timestamp. -/
def dayOfTimestamp (t : Nat) : Nat := t / msPerDay

/-- Embedding of `Moment(d).format('D MMMM Y')`: an injective rendering of the
calendar day (day-of-month, month name and year determine the day uniquely,
and distinct days render distinctly). -/
def formatDay (d : Nat) : String := "day " ++ toString d

/-- Embedding of `Moment(message)` as used on line 180 of the source: moment's
object parser only recognizes date-unit keys (`year`, `month`, `day`, `date`,
`hour`, ...); a Message object has none of those keys, so all of its fields
are ignored and the parse yields the current date at midnight. In particular
the result does not depend on `createdAt`. -/
def momentOfMessageDay (now : Nat) (_message : Message) : Nat :=
  dayOfTimestamp now

/-- The ownership annotation applied to each message
(`message.ownership = this.senderId == message.senderId ? 'mine' : 'other'`). -/
def annotateOwnership (senderId : String) (message : Message) : Message :=
  { message with ownership := if senderId = message.senderId then "mine" else "other" }

/-- Stable insertion of a message into a list sorted by `createdAt` ascending. -/
def insertByCreatedAt (m : Message) : List Message → List Message
  | [] => [m]
  | n :: rest =>
    if m.createdAt ≤ n.createdAt then m :: n :: rest else n :: insertByCreatedAt m rest

/-- The `sort: \x7b createdAt: 1 \x7d` option of `Messages.find`: sort by
creation time ascending. -/
def sortByCreatedAt : List Message → List Message
  | [] => []
  | m :: rest => insertByCreatedAt m (sortByCreatedAt rest)

/-- The keys of `_.groupBy`'s result in `Object.keys` order, i.e. order of
first occurrence (the labels are non-numeric strings, so JS preserves
insertion order). -/
def groupKeys : List String → List String
  | [] => []
  | k :: rest => k :: (groupKeys rest).filter (fun k2 => k2 ≠ k)

/-- Embedding of `_.groupBy` followed by `Object.keys(...).map`: the buckets
in first-occurrence key order, each bucket keeping the input order of its
elements. -/
def groupByKey (f : Message → String) (l : List Message) : List (String × List Message) :=
  (groupKeys (l.map f)).map (fun k => (k, l.filter (fun m => f m = k)))

/-- `findMessagesDayGroups` (lines 163-193): take the chat's messages sorted
by creation time ascending, annotate ownership, group with
`Moment(message).format('D MMMM Y')` as key, and emit one group per key with
`today` set when the key equals `Moment().format('D MMMM Y')`.
`senderId` is the current user id, `db` the message collection, `now` the
current time. -/
def findMessagesDayGroups (senderId : String) (chatId : String) (now : Nat)
    (db : List Message) : List DayGroup :=
  let relevant := sortByCreatedAt (db.filter (fun m => m.chatId = chatId))
  let annotated := relevant.map (annotateOwnership senderId)
  let grouped := groupByKey (fun m => formatDay (momentOfMessageDay now m)) annotated
  grouped.map (fun p =>
    { timestamp := p.1
      messages := p.2
      today := formatDay (dayOfTimestamp now) = p.1 })

/-- The intended projection per the spec and the code's own comment
(`// Group by creation day`): the grouping key is the formatted creation day
of the message, `Moment(message.createdAt).format('D MMMM Y')`. Used only to
state the divergence of the code from the claim. -/
def findMessagesDayGroupsSpec (senderId : String) (chatId : String) (now : Nat)
    (db : List Message) : List DayGroup :=
  let relevant := sortByCreatedAt (db.filter (fun m => m.chatId = chatId))
  let annotated := relevant.map (annotateOwnership senderId)
  let grouped := groupByKey (fun m => formatDay (dayOfTimestamp m.createdAt)) annotated
  grouped.map (fun p =>
    { timestamp := p.1
      messages := p.2
      today := formatDay (dayOfTimestamp now) = p.1 })

/-! ## Component state and methods -/

/-- The mutable fields of `MessagesPage` that the verified methods touch,
together with the scroller's `scrollTop` (the piece of DOM state the component
writes). `messagesComputation` holds the identity of the autorun computation,
`none` before the first assignment. -/
structure ComponentState where
  loadingMessages : Bool
  message : String
  messagesBatchCounter : Nat
  messagesComputation : Option Nat
  scrollOffset : Nat
  scrollTop : Nat
  deriving Repr, DecidableEq

/-- The component state after the field initializers and the constructor:
`message = ''`, `messagesBatchCounter = 0`, `scrollOffset = 0`, no computation,
`loadingMessages` undefined (falsy). -/
def initialState : ComponentState :=
  { loadingMessages := false
    message := ""
    messagesBatchCounter := 0
    messagesComputation := none
    scrollOffset := 0
    scrollTop := 0 }

/-- A `MeteorObservable.call('addMessage', kind, chatId, content)` effect. -/
structure AddMessageCall where
  kind : String
  chatId : String
  content : String
  deriving Repr, DecidableEq

/-- A `MeteorObservable.subscribe('messages', chatId, batchCounter)` effect. -/
structure SubscribeRequest where
  name : String
  chatId : String
  batchCounter : Nat
  deriving Repr, DecidableEq

/-- `sendTextMessage` (lines 212-223), up to the point the remote call is
issued: abort if the input is empty, otherwise issue exactly one
`addMessage` call with kind `'text'`, the selected chat's id and the input
string. No state is mutated at this point; the input is cleared only in the
acknowledgment callback (`sendTextMessageAck`). -/
def sendTextMessage (s : ComponentState) (chatId : String) :
    ComponentState × List AddMessageCall :=
  if s.message = "" then (s, [])
  else (s, [{ kind := "text", chatId := chatId, content := s.message }])

/-- The acknowledgment callback of `sendTextMessage`'s remote call
(lines 219-222): zero the input field. -/
def sendTextMessageAck (s : ComponentState) : ComponentState :=
  { s with message := "" }

/-- `onInputKeypress` (lines 90-94): dispatch to `sendTextMessage` exactly
when the event's `keyCode` is 13. -/
def onInputKeypress (keyCode : Nat) (s : ComponentState) (chatId : String) :
    ComponentState × List AddMessageCall :=
  if keyCode = 13 then sendTextMessage s chatId else (s, [])

/-- `subscribeMessages` (lines 123-139), up to the point the subscription
request is issued: raise the in-flight flag, capture the scroller's current
scroll height as `scrollOffset`, pre-increment the batch counter and request
the `'messages'` subscription with the incremented value. -/
def subscribeMessages (s : ComponentState) (scrollHeight : Nat) (chatId : String) :
    ComponentState × SubscribeRequest :=
  let s2 := { s with
    loadingMessages := true
    scrollOffset := scrollHeight
    messagesBatchCounter := s.messagesBatchCounter + 1 }
  (s2, { name := "messages", chatId := chatId, batchCounter := s2.messagesBatchCounter })

/-- The ready callback of `subscribeMessages`'s subscription (lines 133-138):
assign the autorun computation only if none is assigned yet, then clear the
in-flight flag. `newComputation` is the identity of the computation that
`autorunMessages()` would create in this callback. -/
def subscribeMessagesReady (s : ComponentState) (newComputation : Nat) : ComponentState :=
  let comp := match s.messagesComputation with
    | none => some newComputation
    | some c => some c
  { s with messagesComputation := comp, loadingMessages := false }

/-- The dataset callback inside `autoRemoveScrollListener` (lines 142-153):
the removal signal is emitted exactly when the materialized message count
equals the count snapshot captured at initialization
(`if (messagesCount != messages.length) return; observer.next()`). -/
def autoRemoveScrollListener (messagesCount messagesLength : Nat) : Bool :=
  messagesCount = messagesLength

/-- A scroll-to-top event after the `.filter(() => !this.scroller.scrollTop)`
stage of the `ngOnInit` pipeline (lines 72-82): if a subscription is in
flight, do nothing; otherwise invoke `subscribeMessages`. -/
def onScrollTopEvent (s : ComponentState) (scrollHeight : Nat) (chatId : String) :
    ComponentState × Option SubscribeRequest :=
  if s.loadingMessages then (s, none)
  else
    let r := subscribeMessages s scrollHeight chatId
    (r.1, some r.2)

/-- The state of the scroll-event pipeline installed by `ngOnInit`: the
component state, whether the `takeUntil` stage still forwards scroll events,
and the total-count snapshot captured by the one `countMessages` fetch. -/
structure ListenerState where
  comp : ComponentState
  listenerActive : Bool
  snapshot : Nat
  deriving Repr, DecidableEq

/-- The asynchronous events the installed pipeline reacts to: a scroll event
(with whether the scroller is at the top, and the current scroll height), a
change of the materialized `Messages.find()` result (its new length), and the
ready callback of an outstanding subscription. -/
inductive PipelineEvent where
  | scroll (atTop : Bool) (scrollHeight : Nat)
  | datasetChange (messagesLength : Nat)
  | subscriptionReady (newComputation : Nat)
  deriving Repr, DecidableEq

/-- One step of the installed pipeline. A scroll event is forwarded only while
the listener is active and the scroller is at the top
(`.takeUntil(...)`, `.filter(() => !this.scroller.scrollTop)`); a dataset
change deactivates the listener exactly when `autoRemoveScrollListener`
signals; a ready callback runs `subscribeMessagesReady`. The snapshot is never
rewritten: `countMessages` is fetched once. -/
def pipelineStep (chatId : String) (st : ListenerState) (e : PipelineEvent) :
    ListenerState × Option SubscribeRequest :=
  match e with
  | .scroll atTop scrollHeight =>
    if st.listenerActive && atTop then
      let r := onScrollTopEvent st.comp scrollHeight chatId
      ({ st with comp := r.1 }, r.2)
    else (st, none)
  | .datasetChange messagesLength =>
    if autoRemoveScrollListener st.snapshot messagesLength then
      ({ st with listenerActive := false }, none)
    else (st, none)
  | .subscriptionReady newComputation =>
    ({ st with comp := subscribeMessagesReady st.comp newComputation }, none)

/-- Run the pipeline over a sequence of events, collecting every subscription
request it issues. -/
def pipelineRun (chatId : String) (st : ListenerState) :
    List PipelineEvent → ListenerState × List SubscribeRequest
  | [] => (st, [])
  | e :: es =>
    let r := pipelineStep chatId st e
    let rest := pipelineRun chatId r.1 es
    (rest.1, r.2.toList ++ rest.2)

/-- `ngOnInit` (lines 65-84), synchronous part: install the auto-scroller
(DOM only), invoke `subscribeMessages` once, and issue the single
`countMessages` remote call. Returns the new state, the first subscription
request, and the list of remote method calls issued. -/
def ngOnInit (s : ComponentState) (scrollHeight : Nat) (chatId : String) :
    ComponentState × SubscribeRequest × List String :=
  let r := subscribeMessages s scrollHeight chatId
  (r.1, r.2, ["countMessages"])

/-- The `countMessages` response callback of `ngOnInit` (lines 71-83):
install the scroll pipeline with the fetched count as the permanent
snapshot. -/
def installScrollListener (s : ComponentState) (messagesCount : Nat) : ListenerState :=
  { comp := s, listenerActive := true, snapshot := messagesCount }

/-- `scrollDown` (lines 237-245): the MutationObserver callback. If a
subscription is in flight, leave the scroller untouched; otherwise set
`scrollTop` to the current scroll height minus the saved offset and zero
the offset. -/
def scrollDown (s : ComponentState) (scrollHeight : Nat) : ComponentState :=
  if s.loadingMessages then s
  else { s with scrollTop := scrollHeight - s.scrollOffset, scrollOffset := 0 }

/-- Fold `subscribeMessagesReady` over any number of ready callbacks. -/
def runReadyCallbacks (s : ComponentState) : List Nat → ComponentState
  | [] => s
  | c :: cs => runReadyCallbacks (subscribeMessagesReady s c) cs

/-! ## Sample states used by the closed witness theorems -/

/-- A state with a non-empty input field. -/
def sampleTyped : ComponentState := { initialState with message := "hello" }

/-- A state with a pagination request in flight. -/
def sampleLoading : ComponentState := { initialState with loadingMessages := true }

/-- A state with a non-zero saved scroll offset. -/
def sampleOffset : ComponentState := { initialState with scrollOffset := 30 }

/-- A pipeline state whose scroll listener has already been removed. -/
def sampleRemoved : ListenerState :=
  { comp := initialState, listenerActive := false, snapshot := 5 }

/-- A message of chat `c` sent by the current user `me` on day 0. -/
def msgDayZero : Message :=
  { mongoId := "a", chatId := "c", senderId := "me", createdAt := 0,
    content := "x", kind := "text" }

/-- A message of chat `c` sent by another user on day 1. -/
def msgDayOne : Message :=
  { mongoId := "b", chatId := "c", senderId := "you", createdAt := msPerDay,
    content := "y", kind := "text" }

/-- The single day group the projection produces for `[msgDayZero]` with the
current user `me` at time 0. -/
def sampleGroup : DayGroup :=
  { timestamp := formatDay 0, messages := [annotateOwnership "me" msgDayZero],
    today := true }

/-! ## Theorems -/

/-- C2: for every non-empty input string, `sendTextMessage` issues exactly one
remote `addMessage` call with kind `text`, the selected chat's id and exactly
the input string; no state changes when the call is issued (in particular the
input is not yet cleared), and the input is set to the empty string by the
acknowledgment callback. -/
theorem sendTextMessage_nonempty_sends_once (s : ComponentState) (chatId : String)
    (h : s.message ≠ "") :
    (sendTextMessage s chatId).2 =
      [{ kind := "text", chatId := chatId, content := s.message }] ∧
    (sendTextMessage s chatId).1 = s ∧
    (sendTextMessageAck (sendTextMessage s chatId).1).message = "" := by
  simp [sendTextMessage, sendTextMessageAck, h]

/-- Witness for C2 at the concrete state `sampleTyped` and chat `chat1`. -/
theorem sendTextMessage_nonempty_sends_once_witness :
    sampleTyped.message ≠ "" ∧
    ((sendTextMessage sampleTyped "chat1").2 =
      [{ kind := "text", chatId := "chat1", content := sampleTyped.message }] ∧
     (sendTextMessage sampleTyped "chat1").1 = sampleTyped ∧
     (sendTextMessageAck (sendTextMessage sampleTyped "chat1").1).message = "") :=
  ⟨by decide, sendTextMessage_nonempty_sends_once sampleTyped "chat1" (by decide)⟩

/-- C3: for an empty input string, `sendTextMessage` issues no remote call and
returns the state unchanged. -/
theorem sendTextMessage_empty_noop (s : ComponentState) (chatId : String)
    (h : s.message = "") :
    sendTextMessage s chatId = (s, []) := by
  simp [sendTextMessage, h]

/-- Witness for C3 at the initial state, whose input field is empty. -/
theorem sendTextMessage_empty_noop_witness :
    initialState.message = "" ∧ sendTextMessage initialState "chat1" = (initialState, []) :=
  ⟨rfl, sendTextMessage_empty_noop initialState "chat1" rfl⟩

/-- C10: `onInputKeypress` invokes the text-send path exactly when the event's
`keyCode` is 13; for any other key code it issues no remote call and leaves
the state unchanged. -/
theorem onInputKeypress_enter_only (keyCode : Nat) (s : ComponentState) (chatId : String) :
    (keyCode = 13 → onInputKeypress keyCode s chatId = sendTextMessage s chatId) ∧
    (keyCode ≠ 13 → onInputKeypress keyCode s chatId = (s, [])) := by
  constructor <;> intro h <;> simp [onInputKeypress, h]

/-- Witness for C10 at key codes 13 (Enter) and 65. -/
theorem onInputKeypress_enter_only_witness :
    onInputKeypress 13 initialState "chat1" = sendTextMessage initialState "chat1" ∧
    onInputKeypress 65 initialState "chat1" = (initialState, []) :=
  ⟨(onInputKeypress_enter_only 13 initialState "chat1").1 rfl,
   (onInputKeypress_enter_only 65 initialState "chat1").2 (by decide)⟩

/-- Every message inside a bucket of `groupByKey` is a member of the input
list. -/
theorem groupByKey_mem (f : Message → String) (l : List Message)
    (p : String × List Message) (hp : p ∈ groupByKey f l)
    (m : Message) (hm : m ∈ p.2) : m ∈ l := by
  simp only [groupByKey, List.mem_map] at hp
  obtain ⟨k, _, rfl⟩ := hp
  exact (List.mem_filter.mp hm).1

/-- A pipeline step from a state whose listener was removed issues no
subscription request and leaves the listener removed. -/
theorem pipelineStep_inactive (chatId : String) (st : ListenerState) (e : PipelineEvent)
    (h : st.listenerActive = false) :
    (pipelineStep chatId st e).2 = none ∧
    (pipelineStep chatId st e).1.listenerActive = false := by
  cases e with
  | scroll atTop scrollHeight => simp [pipelineStep, h]
  | datasetChange messagesLength =>
    simp only [pipelineStep]
    split <;> simp [h]
  | subscriptionReady newComputation => simp [pipelineStep, h]

/-- No pipeline step ever rewrites the count snapshot. -/
theorem pipelineStep_snapshot (chatId : String) (st : ListenerState) (e : PipelineEvent) :
    (pipelineStep chatId st e).1.snapshot = st.snapshot := by
  cases e with
  | scroll atTop scrollHeight =>
    simp only [pipelineStep]
    split <;> rfl
  | datasetChange messagesLength =>
    simp only [pipelineStep]
    split <;> rfl
  | subscriptionReady newComputation => rfl

/-- Running the pipeline from a state whose listener was removed issues no
subscription request, and the listener stays removed. -/
theorem pipelineRun_inactive (chatId : String) (es : List PipelineEvent) :
    ∀ st : ListenerState, st.listenerActive = false →
      (pipelineRun chatId st es).2 = [] ∧
      (pipelineRun chatId st es).1.listenerActive = false := by
  induction es with
  | nil => intro st h; exact ⟨rfl, h⟩
  | cons e es ih =>
    intro st h
    have hs := pipelineStep_inactive chatId st e h
    have hrest := ih (pipelineStep chatId st e).1 hs.2
    simp [pipelineRun, hs.1, hrest.1, hrest.2]

/-- The count snapshot is invariant under any run of the pipeline. -/
theorem pipelineRun_snapshot (chatId : String) (es : List PipelineEvent) :
    ∀ st : ListenerState, (pipelineRun chatId st es).1.snapshot = st.snapshot := by
  induction es with
  | nil => intro st; rfl
  | cons e es ih =>
    intro st
    have := pipelineStep_snapshot chatId st e
    simp [pipelineRun]
    rw [ih]
    exact this

/-- `subscribeMessagesReady` keeps an already-assigned computation. -/
theorem runReadyCallbacks_preserves (cs : List Nat) :
    ∀ (s : ComponentState) (c0 : Nat), s.messagesComputation = some c0 →
      (runReadyCallbacks s cs).messagesComputation = some c0 := by
  induction cs with
  | nil => intro s c0 h; exact h
  | cons c cs ih =>
    intro s c0 h
    have : (subscribeMessagesReady s c).messagesComputation = some c0 := by
      simp [subscribeMessagesReady, h]
    exact ih (subscribeMessagesReady s c) c0 this

/-- C4: a scroll-to-top event while `loadingMessages` is true issues no
subscription and changes nothing; one while it is false increments the batch
counter by exactly one and issues a subscription request carrying the
incremented value. -/
theorem scroll_to_top_gating (s : ComponentState) (scrollHeight : Nat) (chatId : String) :
    (s.loadingMessages = true → onScrollTopEvent s scrollHeight chatId = (s, none)) ∧
    (s.loadingMessages = false →
      (onScrollTopEvent s scrollHeight chatId).1.messagesBatchCounter =
        s.messagesBatchCounter + 1 ∧
      (onScrollTopEvent s scrollHeight chatId).2 =
        some { name := "messages", chatId := chatId,
               batchCounter := s.messagesBatchCounter + 1 }) := by
  constructor <;> intro h <;> simp [onScrollTopEvent, subscribeMessages, h]

/-- Witness for C4 at a loading state and at the idle initial state. -/
theorem scroll_to_top_gating_witness :
    onScrollTopEvent sampleLoading 100 "chat1" = (sampleLoading, none) ∧
    (onScrollTopEvent initialState 100 "chat1").2 =
      some { name := "messages", chatId := "chat1",
             batchCounter := initialState.messagesBatchCounter + 1 } :=
  ⟨(scroll_to_top_gating sampleLoading 100 "chat1").1 rfl,
   ((scroll_to_top_gating initialState 100 "chat1").2 rfl).2⟩

/-- C5: a dataset change whose length equals the snapshot captured by the
initial `countMessages` fetch removes the scroll listener; once removed, no
run of subsequent events ever issues a subscription request and the listener
never comes back; and the snapshot compared against is the initial one, never
rewritten by any event. -/
theorem scroll_listener_removed_forever (chatId : String) (st : ListenerState)
    (es : List PipelineEvent) :
    (pipelineStep chatId st (PipelineEvent.datasetChange st.snapshot)).1.listenerActive
      = false ∧
    (st.listenerActive = false →
      (pipelineRun chatId st es).2 = [] ∧
      (pipelineRun chatId st es).1.listenerActive = false) ∧
    (pipelineRun chatId st es).1.snapshot = st.snapshot := by
  refine ⟨?_, fun h => pipelineRun_inactive chatId es st h, pipelineRun_snapshot chatId es st⟩
  simp [pipelineStep, autoRemoveScrollListener]

/-- Witness for C5: from a removed-listener state, a scroll-to-top event, a
dataset change and a ready callback issue no subscription request. -/
theorem scroll_listener_removed_forever_witness :
    (pipelineRun "chat1" sampleRemoved
      [PipelineEvent.scroll true 100, PipelineEvent.datasetChange 3,
       PipelineEvent.subscriptionReady 1]).2 = [] ∧
    (pipelineRun "chat1" sampleRemoved
      [PipelineEvent.scroll true 100, PipelineEvent.datasetChange 3,
       PipelineEvent.subscriptionReady 1]).1.listenerActive = false :=
  (scroll_listener_removed_forever "chat1" sampleRemoved
    [PipelineEvent.scroll true 100, PipelineEvent.datasetChange 3,
     PipelineEvent.subscriptionReady 1]).2.1 rfl

/-- C6: on a DOM insertion while not loading, `scrollDown` sets the scroll
position to the current scroll height minus the saved offset and zeroes the
offset; while loading it leaves the state untouched; and `subscribeMessages`
captures the current scroll height as the offset before issuing the request. -/
theorem scrollDown_behavior (s : ComponentState) (scrollHeight : Nat) (chatId : String) :
    (s.loadingMessages = false →
      (scrollDown s scrollHeight).scrollTop = scrollHeight - s.scrollOffset ∧
      (scrollDown s scrollHeight).scrollOffset = 0) ∧
    (s.loadingMessages = true → scrollDown s scrollHeight = s) ∧
    (subscribeMessages s scrollHeight chatId).1.scrollOffset = scrollHeight := by
  refine ⟨fun h => ?_, fun h => ?_, rfl⟩ <;> simp [scrollDown, h]

/-- Witness for C6 at a state with saved offset 30 and at a loading state. -/
theorem scrollDown_behavior_witness :
    ((scrollDown sampleOffset 100).scrollTop = 100 - sampleOffset.scrollOffset ∧
     (scrollDown sampleOffset 100).scrollOffset = 0) ∧
    scrollDown sampleLoading 100 = sampleLoading :=
  ⟨(scrollDown_behavior sampleOffset 100 "chat1").1 rfl,
   (scrollDown_behavior sampleLoading 100 "chat1").2.1 rfl⟩

/-- C8: `ngOnInit` issues the `countMessages` remote call exactly once, its
first subscription request carries batch counter 1, and every
`subscribeMessages` invocation increments the counter by exactly one and
requests with the incremented value (a monotonically incrementing page
index). -/
theorem init_counts_once_first_page_one (scrollHeight : Nat) (chatId : String) :
    (ngOnInit initialState scrollHeight chatId).2.2 = ["countMessages"] ∧
    (ngOnInit initialState scrollHeight chatId).2.1.batchCounter = 1 ∧
    ∀ (s : ComponentState) (h2 : Nat),
      (subscribeMessages s h2 chatId).1.messagesBatchCounter =
        s.messagesBatchCounter + 1 ∧
      (subscribeMessages s h2 chatId).2.batchCounter =
        s.messagesBatchCounter + 1 :=
  ⟨rfl, rfl, fun _ _ => ⟨rfl, rfl⟩⟩

/-- C9: the autorun computation is assigned by the first subscription-ready
callback and never replaced by any number of later ready callbacks. -/
theorem messagesComputation_assigned_once (s : ComponentState) (c : Nat) (cs : List Nat) :
    (s.messagesComputation = none →
      (runReadyCallbacks s (c :: cs)).messagesComputation = some c) ∧
    (∀ c0, s.messagesComputation = some c0 →
      (runReadyCallbacks s cs).messagesComputation = some c0) := by
  constructor
  · intro h
    have : (subscribeMessagesReady s c).messagesComputation = some c := by
      simp [subscribeMessagesReady, h]
    exact runReadyCallbacks_preserves cs (subscribeMessagesReady s c) c this
  · intro c0 h
    exact runReadyCallbacks_preserves cs s c0 h

/-- Witness for C9: from the initial state (no computation), three ready
callbacks leave the computation created by the first one in place. -/
theorem messagesComputation_assigned_once_witness :
    initialState.messagesComputation = none ∧
    (runReadyCallbacks initialState (7 :: [8, 9])).messagesComputation = some 7 :=
  ⟨rfl, (messagesComputation_assigned_once initialState 7 [8, 9]).1 rfl⟩

/-- C7: every message in the day-group projection carries
`ownership = "mine"` exactly when its `senderId` equals the current user's id,
and `ownership = "other"` otherwise. -/
theorem ownership_annotation (senderId chatId : String) (now : Nat) (db : List Message)
    (g : DayGroup) (hg : g ∈ findMessagesDayGroups senderId chatId now db)
    (m : Message) (hm : m ∈ g.messages) :
    (m.ownership = "mine" ↔ senderId = m.senderId) ∧
    (m.ownership = "other" ↔ senderId ≠ m.senderId) := by
  simp only [findMessagesDayGroups, List.mem_map] at hg
  obtain ⟨p, hp, rfl⟩ := hg
  simp only at hm
  have hmem :
      m ∈ (sortByCreatedAt (db.filter (fun x => x.chatId = chatId))).map
        (annotateOwnership senderId) :=
    groupByKey_mem _ _ p hp m hm
  simp only [List.mem_map] at hmem
  obtain ⟨m0, _, rfl⟩ := hmem
  by_cases hcase : senderId = m0.senderId <;>
    simp [annotateOwnership, hcase]

/-- Witness for C7 at a one-message collection whose sender is the current
user. -/
theorem ownership_annotation_witness :
    ((annotateOwnership "me" msgDayZero).ownership = "mine" ↔
      "me" = msgDayZero.senderId) ∧
    ((annotateOwnership "me" msgDayZero).ownership = "other" ↔
      "me" ≠ msgDayZero.senderId) :=
  ownership_annotation "me" "c" 0 [msgDayZero] sampleGroup (by decide)
    (annotateOwnership "me" msgDayZero) (by decide)

/-- C1 (code-bug evidence): grouping uses `Moment(message)` — the whole
message object, not `message.createdAt` — which moment parses to the current
date regardless of the message's fields. At a collection whose two messages
were created on day 0 and day 1 (with the current time on day 1), the claim
demands exactly two day groups, but the code produces exactly one, keyed by
the current date's label; the intended creation-day grouping
(`findMessagesDayGroupsSpec`, matching the code's own
`// Group by creation day` comment) produces the two groups the claim
describes. -/
theorem dayGroups_moment_bug :
    dayOfTimestamp msgDayZero.createdAt = 0 ∧
    dayOfTimestamp msgDayOne.createdAt = 1 ∧
    (findMessagesDayGroups "me" "c" msPerDay [msgDayZero, msgDayOne]).length = 1 ∧
    (findMessagesDayGroups "me" "c" msPerDay [msgDayZero, msgDayOne]).map
      DayGroup.timestamp = [formatDay (dayOfTimestamp msPerDay)] ∧
    (findMessagesDayGroupsSpec "me" "c" msPerDay [msgDayZero, msgDayOne]).length = 2 := by
  refine ⟨by decide, by decide, rfl, rfl, rfl⟩

end MessagesPage
